import Mathlib

/-
Verification development for a small object-relational layer over an
embedded SQL store (file src/table.py of the repository).  The Python
source is shallowly embedded: Python scalar objects become the inductive
type PyObj, Python exceptions become the inductive type PyError (each
constructor records one raise site or one driver-level failure, together
with the data the message interpolates), and the embedded store is a list
of rows.  Every operation of the class Table is translated statement by
statement; driver behaviour (sqlite3 parameter binding, the WHERE-clause
fragment grammar this component emits) is modelled explicitly where the
code relies on it.
-/

/-- Model of the Python objects this component manipulates: None, ints,
strings, lists, dicts with string keys (the code only ever uses column
names as keys), and slice objects with optional integer bounds.  In the
Python 2 runtime the code targets, str has no attr iter-dunder, while
list and dict do; this drives the shape sniffing in insert, select and
getitem. -/
inductive PyObj where
  | none
  | int (n : Int)
  | str (s : String)
  | list (xs : List PyObj)
  | dict (kvs : List (String × PyObj))
  | slice (start stop step : Option Int)

/-- Scalar cell stored in a table row of the embedded store. -/
inductive Cell where
  | null
  | int (n : Int)
  | str (s : String)
  deriving DecidableEq, Repr

/-- Python exceptions raised by src/table.py or by the sqlite3 driver,
one constructor per raise site / driver failure, carrying the data the
message interpolates.
  schemaValueError: raise ValueError("more than one primary key: ...")
    in Table.init (the indices of the flagged columns);
  invalidDtype: raise ValueError("invalid data type: ...") in create;
  invalidPkDtype: raise ValueError("invalid data type for primary key")
    in create;
  arityValueError: raise ValueError("expected %d values, got %d") in
    insert;
  rowTypeValueError: raise ValueError("expected dict or list/tuple") in
    insert;
  noPkValueError: raise ValueError("no primary key column") in getitem;
  stepValueError: raise ValueError("cannot handle step size > 1");
  invalidKey: raise ValueError("invalid key: %s") in getitem, carrying
    the offending key object;
  indexError: numpy IndexError from meta[:, 1] when the reflection
    result is empty (np.array of an empty row list is one-dimensional);
  iterTypeError: TypeError from iterating a non-iterable key in the
    all(isinstance(k, str) for k in key) guard;
  joinTypeError: TypeError from ",".join over a non-string element;
  bindingCountError: sqlite3 ProgrammingError, statement placeholder
    count versus supplied binding count;
  unsupportedTypeError: sqlite3 InterfaceError, binding of an
    unsupported object (for example a list);
  noSuchColumn / badSqlError: sqlite3 OperationalError. -/
inductive PyError where
  | indexError
  | schemaValueError (pkIdxs : List Nat)
  | invalidDtype (label : String)
  | invalidPkDtype (label : String)
  | arityValueError (expected got : Nat)
  | rowTypeValueError (tname : String)
  | noPkValueError
  | stepValueError
  | invalidKey (k : PyObj)
  | iterTypeError (tname : String)
  | joinTypeError (tname : String)
  | bindingCountError (needed got : Nat)
  | unsupportedTypeError
  | noSuchColumn
  | badSqlError

/-- Python exception class of each modelled error. -/
def pyErrClass : PyError → String
  | .indexError => "IndexError"
  | .schemaValueError _ => "ValueError"
  | .invalidDtype _ => "ValueError"
  | .invalidPkDtype _ => "ValueError"
  | .arityValueError _ _ => "ValueError"
  | .rowTypeValueError _ => "ValueError"
  | .noPkValueError => "ValueError"
  | .stepValueError => "ValueError"
  | .invalidKey _ => "ValueError"
  | .iterTypeError _ => "TypeError"
  | .joinTypeError _ => "TypeError"
  | .bindingCountError _ _ => "ProgrammingError"
  | .unsupportedTypeError => "InterfaceError"
  | .noSuchColumn => "OperationalError"
  | .badSqlError => "OperationalError"

/-- hasattr(x, keys-dunder): only dicts. -/
def hasKeys : PyObj → Bool
  | .dict _ => true
  | _ => false

/-- hasattr(x, iter-dunder) in Python 2: lists and dicts have it,
str / int / None / slice objects do not. -/
def hasIter : PyObj → Bool
  | .list _ => true
  | .dict _ => true
  | _ => false

/-- Elements produced by iterating an iterable object (dict iteration
yields its keys).  Only called under a hasIter guard. -/
def pyElems : PyObj → List PyObj
  | .list xs => xs
  | .dict kvs => kvs.map (fun kv => PyObj.str kv.1)
  | _ => []

/-- isinstance(x, str). -/
def isStr : PyObj → Bool
  | .str _ => true
  | _ => false

/-- type(x) name, as interpolated into Python error messages. -/
def typeName : PyObj → String
  | .none => "NoneType"
  | .int _ => "int"
  | .str _ => "str"
  | .list _ => "list"
  | .dict _ => "dict"
  | .slice _ _ _ => "slice"

mutual
/-- Python equality (==) restricted to the object shapes in scope:
structural, with cross-type comparisons false. -/
def pyEq : PyObj → PyObj → Bool
  | .none, .none => true
  | .int a, .int b => a == b
  | .str a, .str b => a == b
  | .slice a b c, .slice d e f => a == d && b == e && c == f
  | .list xs, .list ys => pyEqList xs ys
  | .dict xs, .dict ys => pyEqDict xs ys
  | _, _ => false

def pyEqList : List PyObj → List PyObj → Bool
  | [], [] => true
  | x :: xs, y :: ys => pyEq x y && pyEqList xs ys
  | _, _ => false

def pyEqDict : List (String × PyObj) → List (String × PyObj) → Bool
  | [], [] => true
  | (k1, v1) :: xs, (k2, v2) :: ys => k1 == k2 && pyEq v1 v2 && pyEqDict xs ys
  | _, _ => false
end

/-- One row of the PRAGMA table_info reflection result.  The pragma
yields six fields (cid, name, type, notnull, dflt_value, pk); the code
reads fields 1 (name), 2 (declared type) and 5 (primary-key flag), so
only those are modelled. -/
structure MetaRow where
  colname : String
  dtype : String
  pkFlag : Nat
  deriving DecidableEq, Repr

/-- The Table handle: database path, table name, reflected column names
in catalog order, optional primary-key column name, and the cached repr
string. -/
structure Table where
  db : String
  name : String
  columns : List String
  pk : Option String
  reprStr : String
  deriving Repr

/-- Result of select: the pandas DataFrame built from the fetched rows.
cols is the resolved column-label list exactly as passed to
DataFrame.from_records (still Python objects at that point), index the
label used as row index if any, rows the fetched records. -/
structure DataFrame where
  cols : List PyObj
  index : Option PyObj
  rows : List (List Cell)

/-- Indices of the reflection rows whose primary-key flag is set:
np.nonzero(meta[:, 5]) over the (object-dtype) flag column, where a
nonzero integer flag is truthy. -/
def pkFlagged (rows : List MetaRow) : List Nat :=
  (List.range rows.length).filter (fun i => (rows.getD i ⟨"", "", 0⟩).pkFlag ≠ 0)

/-- Table construction (the init method), applied to the rows returned
by the reflection query PRAGMA table_info.  np.array of an empty row
list is one-dimensional, so the column access meta[:, 1] raises
IndexError; otherwise columns is field 1 of each row in catalog order.
More than one flagged primary-key column raises
ValueError("more than one primary key: ...") with the flagged index
array; exactly one sets pk to that column's name; zero leaves pk None.
The repr string concatenates name and declared type per column,
appending the PRIMARY KEY AUTOINCREMENT suffix at the index of the
primary-key column. -/
def Table.init (db name : String) (rows : List MetaRow) : Except PyError Table :=
  if rows.isEmpty then .error PyError.indexError
  else
    let columns := rows.map MetaRow.colname
    let pkIdxs := pkFlagged rows
    if 1 < pkIdxs.length then .error (PyError.schemaValueError pkIdxs)
    else
      let pk : Option String := pkIdxs.head?.map (fun i => columns.getD i "")
      let args := rows.map (fun m => m.colname ++ " " ++ m.dtype)
      let args :=
        match pk with
        | Option.none => args
        | some p =>
          let i := columns.indexOf p
          args.set i (args.getD i "" ++ " PRIMARY KEY AUTOINCREMENT")
      .ok { db := db, name := name, columns := columns, pk := pk,
            reprStr := name ++ "(" ++ String.intercalate ", " args ++ ")" }

/-- The Python type objects accepted as dtype arguments of create: the
code compares the argument against None, int, long, float, str, unicode
and buffer (Python 2 builtins); anything else is the rejected case,
modelled with its type name. -/
inductive DType where
  | none
  | int
  | long
  | float
  | str
  | unicode
  | buffer
  | other (tname : String)
  deriving DecidableEq, Repr

/-- Rendering of a dtype into the error message of create. -/
def DType.label : DType → String
  | .none => "None"
  | .int => "int"
  | .long => "long"
  | .float => "float"
  | .str => "str"
  | .unicode => "unicode"
  | .buffer => "buffer"
  | .other t => t

/-- The dtype-to-SQL-type chain of create: None to NULL, int/long to
INTEGER, float to REAL, str/unicode to TEXT, buffer to BLOB, anything
else falls through to the raise. -/
def sqltypeOf : DType → Option String
  | .none => some "NULL"
  | .int => some "INTEGER"
  | .long => some "INTEGER"
  | .float => some "REAL"
  | .str => some "TEXT"
  | .unicode => some "TEXT"
  | .buffer => some "BLOB"
  | .other _ => Option.none

/-- The column-clause loop of create: per (label, dtype) pair, map the
dtype to its SQL type (raising ValueError("invalid data type") on an
unrecognised one); if primary_key names this column, require the SQL
type be INTEGER (raising ValueError("invalid data type for primary
key") otherwise) and append the PRIMARY KEY AUTOINCREMENT suffix. -/
def createArgs : List (String × DType) → Option String → Except PyError (List String)
  | [], _ => .ok []
  | (label, dtype) :: rest, pk =>
    match sqltypeOf dtype with
    | Option.none => .error (PyError.invalidDtype dtype.label)
    | some sqltype =>
      if pk = some label ∧ sqltype ≠ "INTEGER" then
        .error (PyError.invalidPkDtype dtype.label)
      else
        let arg := label ++ " " ++ sqltype ++
          (if pk = some label then " PRIMARY KEY AUTOINCREMENT" else "")
        match createArgs rest pk with
        | .error e => .error e
        | .ok rest2 => .ok (arg :: rest2)

/-- Effect of create on the store, modelled at the level C5 needs: the
store state is the list of existing table names; the single CREATE TABLE
statement is issued only after the whole column-clause loop has
succeeded, so a validation error leaves the state untouched.  Returns
the new state paired with the error, if any. -/
def Table.createRun (dbState : List String) (name : String)
    (dtypes : List (String × DType)) (pk : Option String) :
    List String × Option PyError :=
  match createArgs dtypes pk with
  | .error e => (dbState, some e)
  | .ok _ => (dbState ++ [name], Option.none)

/-- The columns insert must cover: all columns, with the primary key
removed when present (cols.remove; the primary key always occurs in
columns because init derived it from them). -/
def insertCols (t : Table) : List String :=
  match t.pk with
  | Option.none => t.columns
  | some p => t.columns.erase p

/-- Argument normalisation of insert: a mapping or a non-iterable is
wrapped as a one-row batch; otherwise values is a list, whose first
element is inspected (values[0] raises IndexError on an empty list): a
non-iterable first element means values is itself one positional row,
otherwise values is already a batch of rows.  Only lists reach the
match: mappings and non-iterables are wrapped by the guard above. -/
def normalizeValues (values : PyObj) : Except PyError (List PyObj) :=
  if hasKeys values || !hasIter values then .ok [values]
  else
    match values with
    | PyObj.list [] => .error PyError.indexError
    | PyObj.list (v :: vs) =>
      .ok (if hasIter v then v :: vs else [PyObj.list (v :: vs)])
    | v => .ok [v]

/-- The per-row entry extraction of insert.  A dict row looks up each
needed column with vals.get(key, None).  An iterable row is checked for
arity against the non-primary-key column count and then wrapped whole
as the single element of the parameter list (entry = [vals] in the
source: the row is not unpacked).  Anything else raises
ValueError("expected dict or list/tuple"). -/
def rowEntry (cols : List String) (ncol : Nat) (vals : PyObj) :
    Except PyError (List PyObj) :=
  match vals with
  | PyObj.dict kvs =>
    .ok (cols.map (fun k =>
      (((kvs.find? (fun kv => kv.1 == k)).map Prod.snd)).getD PyObj.none))
  | v =>
    if hasIter v then
      let ys := pyElems v
      if ys.length ≠ ncol then .error (PyError.arityValueError ncol ys.length)
      else .ok [v]
    else .error (PyError.rowTypeValueError (typeName v))

/-- The placeholder list of the INSERT statement: one question mark per
non-primary-key column, with the literal NULL inserted at the primary
key's ordinal position. -/
def insertQm (t : Table) (ncol : Nat) : List String :=
  let qm := List.replicate ncol "?"
  match t.pk with
  | Option.none => qm
  | some p => qm.insertIdx (t.columns.indexOf p) "NULL"

/-- Integer content of a cell (used for the auto-increment maximum and
the primary-key comparisons of the store model). -/
def cellInt : Cell → Int
  | .int n => n
  | _ => 0

/-- Auto-increment value the store assigns when NULL is inserted into
an INTEGER PRIMARY KEY AUTOINCREMENT column: one past the largest
primary-key value present. -/
def nextPk (store : List (List Cell)) (pkIdx : Nat) : Int :=
  1 + store.foldl (fun m r => max m (cellInt (r.getD pkIdx Cell.null))) 0

/-- Conversion of a bound Python parameter to a stored cell; lists,
dicts and slices are not bindable (sqlite3 InterfaceError). -/
def toCell : PyObj → Option Cell
  | PyObj.none => some Cell.null
  | PyObj.int n => some (Cell.int n)
  | PyObj.str s => some (Cell.str s)
  | _ => Option.none

/-- Row written by the store for one INSERT execution: walk the columns
in order, the primary-key position receives the auto-assigned value
(the statement holds the literal NULL there), every other position
consumes the next bound parameter. -/
def fillRow (cols : List String) (pk : Option String) (pkVal : Int)
    (cells : List Cell) : List Cell :=
  match cols with
  | [] => []
  | c :: rest =>
    if pk = some c then Cell.int pkVal :: fillRow rest pk pkVal cells
    else cells.headD Cell.null :: fillRow rest pk pkVal cells.tail

/-- sqlite3 execution of the prepared INSERT for one entry: the driver
first checks that the number of supplied bindings equals the statement's
placeholder count (ProgrammingError otherwise), then that each binding
is a supported scalar (InterfaceError otherwise), and only then appends
the new row. -/
def execInsertOne (t : Table) (nq : Nat) (entry : List PyObj)
    (store : List (List Cell)) : Except PyError (List (List Cell)) :=
  if entry.length ≠ nq then .error (PyError.bindingCountError nq entry.length)
  else
    match entry.mapM toCell with
    | Option.none => .error PyError.unsupportedTypeError
    | some cells =>
      let pkIdx := t.columns.indexOf (t.pk.getD "")
      .ok (store ++ [fillRow t.columns t.pk (nextPk store pkIdx) cells])

/-- Table.insert: normalise the argument, build all entries (raising on
a malformed one before any connection is opened), build the placeholder
string, then execute the statement once per entry within one connection
scope. -/
def Table.insert (t : Table) (values? : Option PyObj)
    (store : List (List Cell)) : Except PyError (List (List Cell)) :=
  let values := values?.getD (PyObj.dict [])
  match normalizeValues values with
  | .error e => .error e
  | .ok vlist =>
    let cols := insertCols t
    let ncol := cols.length
    match vlist.mapM (rowEntry cols ncol) with
    | .error e => .error e
    | .ok entries =>
      let qm := insertQm t ncol
      entries.foldlM (fun st entry => execInsertOne t (qm.count "?") entry st) store

/-- Store state after an insert call: the connection context manager
commits the batch on success and rolls it back on an exception, so a
failing call leaves the store as it was. -/
def runInsert (t : Table) (values? : Option PyObj)
    (store : List (List Cell)) : List (List Cell) :=
  match Table.insert t values? store with
  | .ok s2 => s2
  | .error _ => store

/-- The primary key as the Python object held in self.pk: the column
name string, or None when the table has no primary key. -/
def pkObj (t : Table) : PyObj :=
  match t.pk with
  | Option.none => PyObj.none
  | some p => PyObj.str p

/-- Column-list resolution of select: no argument means all columns; a
non-iterable argument is wrapped as a singleton; an iterable argument is
listed out.  Then, if self.pk is not in the list (Python membership via
==), it is inserted at position 0 — unconditionally, even when self.pk
is None. -/
def selectCols (t : Table) (columns : Option PyObj) : List PyObj :=
  let cols :=
    match columns with
    | Option.none => t.columns.map PyObj.str
    | some c => if hasIter c then pyElems c else [c]
  if cols.any (pyEq (pkObj t)) then cols else pkObj t :: cols

/-- The ",".join over the resolved column list: every element must be a
string, a non-string element (None in particular) raises TypeError. -/
def joinColNames : List PyObj → Except PyError (List String)
  | [] => .ok []
  | PyObj.str s :: rest =>
    match joinColNames rest with
    | .error e => .error e
    | .ok r => .ok (s :: r)
  | x :: _ => .error (PyError.joinTypeError (typeName x))

/-- Store model: resolution of the selected column names against the
table's catalog order; an unknown name is an OperationalError (no such
column). -/
def resolveIdxs (tcols : List String) : List String → Option (List Nat)
  | [] => some []
  | c :: rest =>
    if c ∈ tcols then
      match resolveIdxs tcols rest with
      | some r => some (tcols.indexOf c :: r)
      | Option.none => Option.none
    else Option.none

/-- The WHERE-clause shapes this component ever emits (getitem builds
them over the primary-key column; see the slice and integer key paths):
pk=?, pk<?, pk>=?, and pk<? AND pk>=?. -/
inductive WhereForm where
  | eq
  | lt
  | ge
  | ltGe
  deriving DecidableEq, Repr

/-- Number of positional placeholders of each clause shape. -/
def formArity : WhereForm → Nat
  | .eq => 1
  | .lt => 1
  | .ge => 1
  | .ltGe => 2

/-- Store model: the SQL parser, restricted to the WHERE-clause fragment
grammar this component emits, which only ever references the primary-key
column (parameter p); any other text is a syntax/unknown-column failure
of the driver. -/
def parseWhere (p ws : String) : Option WhereForm :=
  if ws = p ++ "=?" then some WhereForm.eq
  else if ws = p ++ "<?" then some WhereForm.lt
  else if ws = p ++ ">=?" then some WhereForm.ge
  else if ws = p ++ "<? AND " ++ p ++ ">=?" then some WhereForm.ltGe
  else Option.none

/-- Store model: binding of the WHERE arguments.  The model is
restricted to integer bindings (the only ones this component's indexing
paths produce); the driver checks the binding count against the
placeholder count. -/
def bindWhere (form : WhereForm) (args : List PyObj) : Except PyError (List Int) :=
  match args.mapM (fun a => match a with | PyObj.int n => some n | _ => Option.none) with
  | Option.none => .error PyError.unsupportedTypeError
  | some ints =>
    if ints.length = formArity form then .ok ints
    else .error (PyError.bindingCountError (formArity form) ints.length)

/-- Store model: evaluation of a recognised WHERE clause on one row,
comparing the row's primary-key cell against the bound integers.  For
the two-bound form the first binding is the strict upper bound and the
second the inclusive lower bound, matching the placeholder order of
pk<? AND pk>=?. -/
def evalForm (form : WhereForm) (args : List Int) (pkIdx : Nat)
    (r : List Cell) : Bool :=
  let v := cellInt (r.getD pkIdx Cell.null)
  match form, args with
  | .eq, [a] => decide (v = a)
  | .lt, [a] => decide (v < a)
  | .ge, [a] => decide (v ≥ a)
  | .ltGe, [b, a] => decide (v < b ∧ v ≥ a)
  | _, _ => false

/-- Store model: execution of the SELECT statement — resolve the column
names, filter the rows by the WHERE clause if one was given, project the
surviving rows onto the selected columns. -/
def sqliteRun (t : Table) (store : List (List Cell)) (names : List String)
    (whereOpt : Option (String × List PyObj)) :
    Except PyError (List (List Cell)) :=
  match resolveIdxs t.columns names with
  | Option.none => .error PyError.noSuchColumn
  | some idxs =>
    let pkIdx := t.columns.indexOf (t.pk.getD "")
    let filteredE : Except PyError (List (List Cell)) :=
      match whereOpt with
      | Option.none => .ok store
      | some (ws, args) =>
        match parseWhere (t.pk.getD "") ws with
        | Option.none => .error PyError.badSqlError
        | some form =>
          match bindWhere form args with
          | .error e => .error e
          | .ok ints => .ok (store.filter (fun r => evalForm form ints pkIdx r))
    match filteredE with
    | .error e => .error e
    | .ok rows => .ok (rows.map (fun r => idxs.map (fun i => r.getD i Cell.null)))

/-- Table.select: resolve the column list (inserting self.pk at the
front when absent), join it into the statement (TypeError if a
non-string such as None is in the list), wrap a scalar WHERE argument
into a one-tuple, execute and fetch, and build the DataFrame with the
primary key as index whenever it is among the resolved columns. -/
def Table.select (t : Table) (columns : Option PyObj)
    (whereOpt : Option (String × PyObj)) (store : List (List Cell)) :
    Except PyError DataFrame :=
  let cols := selectCols t columns
  match joinColNames cols with
  | .error e => .error e
  | .ok names =>
    let whereOpt2 := whereOpt.map (fun wp =>
      (wp.1, if hasIter wp.2 then pyElems wp.2 else [wp.2]))
    match sqliteRun t store names whereOpt2 with
    | .error e => .error e
    | .ok rows =>
      .ok { cols := cols,
            index := if cols.any (pyEq (pkObj t)) then some (pkObj t) else Option.none,
            rows := rows }

/-- Table.getitem, the indexing sugar: an integer key selects the row
with that primary-key value; a slice key maps to a half-open range
filter on the primary key (both paths require a primary key, and a
slice step other than None or 1 is rejected before anything is built);
a string key selects that column; any other key is iterated — if every
element is a string it is a multi-column selection, if some element is
not a string the invalid-key ValueError is raised, and if the key is
not iterable at all the iteration itself raises TypeError. -/
def Table.getitem (t : Table) (key : PyObj) (store : List (List Cell)) :
    Except PyError DataFrame :=
  match key with
  | PyObj.int n =>
    match t.pk with
    | Option.none => .error PyError.noPkValueError
    | some p => Table.select t Option.none (some (p ++ "=?", PyObj.int n)) store
  | PyObj.slice start stop step =>
    match t.pk with
    | Option.none => .error PyError.noPkValueError
    | some p =>
      if step = Option.none ∨ step = some 1 then
        let whereOpt : Option (String × PyObj) :=
          match start, stop with
          | Option.none, Option.none => Option.none
          | Option.none, some b => some (p ++ "<?", PyObj.int b)
          | some a, Option.none => some (p ++ ">=?", PyObj.int a)
          | some a, some b =>
            some (p ++ "<? AND " ++ p ++ ">=?", PyObj.list [PyObj.int b, PyObj.int a])
        Table.select t Option.none whereOpt store
      else .error PyError.stepValueError
  | PyObj.str s => Table.select t (some (PyObj.str s)) Option.none store
  | k =>
    if hasIter k then
      if (pyElems k).all isStr then Table.select t (some k) Option.none store
      else .error (PyError.invalidKey k)
    else .error (PyError.iterTypeError (typeName k))

/-- Primary-key value of a stored row, as the store model reads it when
filtering: the integer content of the cell at the primary-key column's
catalog position. -/
def pkCellVal (t : Table) (r : List Cell) : Int :=
  cellInt (r.getD (t.columns.indexOf (t.pk.getD "")) Cell.null)

/-- Handle over a three-column table with integer primary key id,
as produced by reflection of CREATE TABLE t(id INTEGER PRIMARY KEY
AUTOINCREMENT, a INTEGER, b INTEGER). -/
def tabPk3 : Table :=
  { db := "test.db", name := "t", columns := ["id", "a", "b"],
    pk := some "id", reprStr := "t(id INTEGER PRIMARY KEY AUTOINCREMENT, a INTEGER, b INTEGER)" }

/-- Handle over a two-column table with no primary key. -/
def tabNoPk : Table :=
  { db := "test.db", name := "t2", columns := ["a", "b"],
    pk := Option.none, reprStr := "t2(a TEXT, b TEXT)" }

/-- Handle over a two-column table with integer primary key id. -/
def tabPk2 : Table :=
  { db := "test.db", name := "t3", columns := ["id", "x"],
    pk := some "id", reprStr := "t3(id INTEGER PRIMARY KEY AUTOINCREMENT, x TEXT)" }

/-- Five stored rows of tabPk2, primary keys 1 through 5. -/
def store5 : List (List Cell) :=
  [[Cell.int 1, Cell.str "a"], [Cell.int 2, Cell.str "b"],
   [Cell.int 3, Cell.str "c"], [Cell.int 4, Cell.str "d"],
   [Cell.int 5, Cell.str "e"]]

/-- Reflection result with two primary-key-flagged columns. -/
def metaTwoPk : List MetaRow :=
  [⟨"a", "INTEGER", 1⟩, ⟨"b", "INTEGER", 1⟩]

/-- Reflection result with exactly one primary-key-flagged column. -/
def metaOnePk : List MetaRow :=
  [⟨"id", "INTEGER", 1⟩, ⟨"x", "TEXT", 0⟩]

/-- Reflection result with no primary-key-flagged column. -/
def metaZeroPk : List MetaRow :=
  [⟨"a", "TEXT", 0⟩, ⟨"b", "REAL", 0⟩]

theorem strApp_left_inj (p x y : String) : p ++ x = p ++ y ↔ x = y := by
  constructor
  · intro h
    have h2 := congrArg String.data h
    rw [String.data_append, String.data_append] at h2
    exact String.ext (List.append_cancel_left h2)
  · intro h; rw [h]

theorem strApp_ne_of_len (p : String) (x y : String) (h : x.length ≠ y.length) :
    p ++ x ≠ p ++ y := by
  intro he
  have h2 := congrArg String.length he
  rw [String.length_append, String.length_append] at h2
  omega

theorem parseWhere_eq_clause (p : String) :
    parseWhere p (p ++ "=?") = some WhereForm.eq := by
  unfold parseWhere
  rw [if_pos rfl]

theorem parseWhere_lt_clause (p : String) :
    parseWhere p (p ++ "<?") = some WhereForm.lt := by
  unfold parseWhere
  rw [if_neg, if_pos rfl]
  intro h
  exact absurd ((strApp_left_inj p "<?" "=?").mp h) (by decide)

theorem parseWhere_ge_clause (p : String) :
    parseWhere p (p ++ ">=?") = some WhereForm.ge := by
  unfold parseWhere
  rw [if_neg, if_neg, if_pos rfl]
  · intro h
    exact absurd ((strApp_left_inj p ">=?" "<?").mp h) (by decide)
  · intro h
    exact absurd ((strApp_left_inj p ">=?" "=?").mp h) (by decide)

theorem parseWhere_ltGe_clause (p : String) :
    parseWhere p (p ++ "<? AND " ++ p ++ ">=?") = some WhereForm.ltGe := by
  have h7 : ("<? AND ").length = 7 := rfl
  have h3 : (">=?").length = 3 := rfl
  have h2 : ("=?").length = 2 := rfl
  have hlt : ("<?").length = 2 := rfl
  unfold parseWhere
  rw [if_neg, if_neg, if_neg, if_pos rfl]
  · intro h
    have hl := congrArg String.length h
    simp only [String.length_append] at hl
    omega
  · intro h
    have hl := congrArg String.length h
    simp only [String.length_append] at hl
    omega
  · intro h
    have hl := congrArg String.length h
    simp only [String.length_append] at hl
    omega

theorem joinColNames_map_str (l : List String) :
    joinColNames (l.map PyObj.str) = .ok l := by
  induction l with
  | nil => rfl
  | cons a rest ih => simp [joinColNames, ih]

theorem resolveIdxs_all_mem (tcols : List String) (l : List String)
    (h : ∀ c ∈ l, c ∈ tcols) :
    resolveIdxs tcols l = some (l.map (fun c => tcols.indexOf c)) := by
  induction l with
  | nil => rfl
  | cons a rest ih =>
    have ha : a ∈ tcols := h a (by simp)
    have hr := ih (fun c hc => h c (by simp [hc]))
    simp [resolveIdxs, ha, hr]

theorem map_indexOf_self (l : List String) (h : l.Nodup) :
    l.map (fun c => List.indexOf c l) = List.range l.length := by
  induction l with
  | nil => rfl
  | cons a rest ih =>
    rw [List.nodup_cons] at h
    have hmap : rest.map (fun c => List.indexOf c (a :: rest))
        = (rest.map (fun c => List.indexOf c rest)).map Nat.succ := by
      rw [List.map_map]
      apply List.map_congr_left
      intro c hc
      have hne : a ≠ c := fun he => h.1 (he ▸ hc)
      simp [List.indexOf_cons_ne rest hne]
    calc (a :: rest).map (fun c => List.indexOf c (a :: rest))
        = List.indexOf a (a :: rest)
            :: rest.map (fun c => List.indexOf c (a :: rest)) := rfl
      _ = 0 :: (rest.map (fun c => List.indexOf c rest)).map Nat.succ := by
          rw [List.indexOf_cons_self, hmap]
      _ = 0 :: (List.range rest.length).map Nat.succ := by rw [ih h.2]
      _ = List.range (a :: rest).length := by
          rw [List.length_cons, List.range_succ_eq_map]

theorem map_getD_range (r : List Cell) :
    (List.range r.length).map (fun i => r.getD i Cell.null) = r := by
  induction r with
  | nil => rfl
  | cons a rest ih =>
    rw [List.length_cons, List.range_succ_eq_map, List.map_cons, List.map_map]
    have h2 : (List.range rest.length).map
          ((fun i => (a :: rest).getD i Cell.null) ∘ Nat.succ)
        = (List.range rest.length).map (fun i => rest.getD i Cell.null) := by
      apply List.map_congr_left
      intro i _
      simp [List.getD_cons_succ]
    rw [h2, ih, List.getD_cons_zero]

theorem any_map_pyEq_str (p : String) (l : List String) (h : p ∈ l) :
    (l.map PyObj.str).any (pyEq (PyObj.str p)) = true := by
  rw [List.any_eq_true]
  refine ⟨PyObj.str p, List.mem_map_of_mem _ h, ?_⟩
  simp [pyEq]

theorem proj_rows_id (n : Nat) (rows : List (List Cell))
    (hlen : ∀ r ∈ rows, r.length = n) :
    rows.map (fun r => (List.range n).map (fun i => r.getD i Cell.null)) = rows := by
  have h2 : rows.map (fun r => (List.range n).map (fun i => r.getD i Cell.null))
      = rows.map (fun r => r) := by
    apply List.map_congr_left
    intro r hr
    rw [← hlen r hr]
    exact map_getD_range r
  rw [h2, List.map_id']

theorem select_all_nowhere (t : Table) (p : String) (store : List (List Cell))
    (hpk : t.pk = some p) (hmem : p ∈ t.columns) (hnd : t.columns.Nodup)
    (hlen : ∀ r ∈ store, r.length = t.columns.length) :
    Table.select t Option.none Option.none store =
      .ok { cols := t.columns.map PyObj.str, index := some (PyObj.str p),
            rows := store } := by
  have hpko : pkObj t = PyObj.str p := by simp [pkObj, hpk]
  have hany : (t.columns.map PyObj.str).any (pyEq (pkObj t)) = true := by
    rw [hpko]; exact any_map_pyEq_str p _ hmem
  have hcols : selectCols t Option.none = t.columns.map PyObj.str := by
    simp [selectCols, hany]
  have hresolve : resolveIdxs t.columns t.columns = some (List.range t.columns.length) := by
    rw [resolveIdxs_all_mem _ _ (fun c hc => hc), map_indexOf_self _ hnd]
  have hany2 : (t.columns.map PyObj.str).any (pyEq (PyObj.str p)) = true :=
    any_map_pyEq_str p _ hmem
  simp only [Table.select, hcols, joinColNames_map_str, sqliteRun, hresolve,
    Option.map_none', hany, hany2, hpko, if_true, proj_rows_id _ _ hlen]

theorem select_all_where (t : Table) (p : String) (store : List (List Cell))
    (hpk : t.pk = some p) (hmem : p ∈ t.columns) (hnd : t.columns.Nodup)
    (hlen : ∀ r ∈ store, r.length = t.columns.length)
    (ws : String) (warg : PyObj) (form : WhereForm) (ints : List Int)
    (hpw : parseWhere p ws = some form)
    (hbw : bindWhere form (if hasIter warg then pyElems warg else [warg]) = .ok ints) :
    Table.select t Option.none (some (ws, warg)) store =
      .ok { cols := t.columns.map PyObj.str, index := some (PyObj.str p),
            rows := store.filter
              (fun r => evalForm form ints (List.indexOf p t.columns) r) } := by
  have hpko : pkObj t = PyObj.str p := by simp [pkObj, hpk]
  have hany : (t.columns.map PyObj.str).any (pyEq (pkObj t)) = true := by
    rw [hpko]; exact any_map_pyEq_str p _ hmem
  have hcols : selectCols t Option.none = t.columns.map PyObj.str := by
    simp [selectCols, hany]
  have hresolve : resolveIdxs t.columns t.columns = some (List.range t.columns.length) := by
    rw [resolveIdxs_all_mem _ _ (fun c hc => hc), map_indexOf_self _ hnd]
  have hgetd : t.pk.getD "" = p := by rw [hpk]; rfl
  have hlen2 : ∀ r ∈ store.filter
      (fun r => evalForm form ints (List.indexOf p t.columns) r),
      r.length = t.columns.length :=
    fun r hr => hlen r (List.mem_filter.mp hr).1
  have hany2 : (t.columns.map PyObj.str).any (pyEq (PyObj.str p)) = true :=
    any_map_pyEq_str p _ hmem
  simp only [Table.select, hcols, joinColNames_map_str, sqliteRun, hresolve,
    Option.map_some', hgetd, hpw, hbw, hany, hany2, hpko, if_true,
    proj_rows_id _ _ hlen2]

/-- C3: on a table with primary key, slicing the handle returns exactly
the rows passing the half-open range filter on the primary key — both
bounds: pk less than stop and pk at least start; only stop: pk less
than stop; only start: pk at least start; neither: every row — and a
slice step other than unset or 1 raises the step ValueError without the
store playing any role. -/
theorem getitem_slice_range_semantics (t : Table) (p : String)
    (store : List (List Cell))
    (hpk : t.pk = some p) (hmem : p ∈ t.columns) (hnd : t.columns.Nodup)
    (hlen : ∀ r ∈ store, r.length = t.columns.length) :
    (∀ a b : Int,
      Table.getitem t (PyObj.slice (some a) (some b) Option.none) store =
        .ok { cols := t.columns.map PyObj.str, index := some (PyObj.str p),
              rows := store.filter
                (fun r => decide (pkCellVal t r < b ∧ pkCellVal t r ≥ a)) })
    ∧ (∀ b : Int,
      Table.getitem t (PyObj.slice Option.none (some b) Option.none) store =
        .ok { cols := t.columns.map PyObj.str, index := some (PyObj.str p),
              rows := store.filter (fun r => decide (pkCellVal t r < b)) })
    ∧ (∀ a : Int,
      Table.getitem t (PyObj.slice (some a) Option.none Option.none) store =
        .ok { cols := t.columns.map PyObj.str, index := some (PyObj.str p),
              rows := store.filter (fun r => decide (pkCellVal t r ≥ a)) })
    ∧ (Table.getitem t (PyObj.slice Option.none Option.none Option.none) store =
        .ok { cols := t.columns.map PyObj.str, index := some (PyObj.str p),
              rows := store })
    ∧ (∀ (a b : Option Int) (k : Int), k ≠ 1 → ∀ store2 : List (List Cell),
        Table.getitem t (PyObj.slice a b (some k)) store2 =
          .error PyError.stepValueError) := by
  refine ⟨?_, ?_, ?_, ?_, ?_⟩
  · intro a b
    have hsel := select_all_where t p store hpk hmem hnd hlen
      (p ++ "<? AND " ++ p ++ ">=?") (PyObj.list [PyObj.int b, PyObj.int a])
      WhereForm.ltGe [b, a] (parseWhere_ltGe_clause p) rfl
    simp only [Table.getitem, hpk]
    rw [if_pos (Or.inl trivial), hsel]
    simp only [pkCellVal, hpk, Option.getD_some, evalForm]
  · intro b
    have hsel := select_all_where t p store hpk hmem hnd hlen
      (p ++ "<?") (PyObj.int b) WhereForm.lt [b] (parseWhere_lt_clause p) rfl
    simp only [Table.getitem, hpk]
    rw [if_pos (Or.inl trivial), hsel]
    simp only [pkCellVal, hpk, Option.getD_some, evalForm]
  · intro a
    have hsel := select_all_where t p store hpk hmem hnd hlen
      (p ++ ">=?") (PyObj.int a) WhereForm.ge [a] (parseWhere_ge_clause p) rfl
    simp only [Table.getitem, hpk]
    rw [if_pos (Or.inl trivial), hsel]
    simp only [pkCellVal, hpk, Option.getD_some, evalForm]
  · have hsel := select_all_nowhere t p store hpk hmem hnd hlen
    simp only [Table.getitem, hpk]
    rw [if_pos (Or.inl trivial), hsel]
  · intro a b k hk store2
    have hcond : ¬(some k = Option.none ∨ some k = some 1) := by
      intro h
      rcases h with h | h
      · exact Option.noConfusion h
      · exact hk (Option.some.inj h)
    simp only [Table.getitem, hpk]
    rw [if_neg hcond]

/-- The error constructors the select path can produce; the invalid-key
ValueError of getitem is not among them. -/
def selectErrShape : PyError → Bool
  | .joinTypeError _ => true
  | .noSuchColumn => true
  | .badSqlError => true
  | .bindingCountError _ _ => true
  | .unsupportedTypeError => true
  | _ => false

theorem joinColNames_error_shape (l : List PyObj) (e : PyError)
    (h : joinColNames l = .error e) : selectErrShape e = true := by
  induction l with
  | nil => simp [joinColNames] at h
  | cons x rest ih =>
    cases x with
    | str s =>
      simp only [joinColNames] at h
      cases hrec : joinColNames rest with
      | error e2 =>
        rw [hrec] at h
        cases h
        exact ih hrec
      | ok r =>
        rw [hrec] at h
        simp at h
    | none => simp only [joinColNames] at h; cases h; rfl
    | int n => simp only [joinColNames] at h; cases h; rfl
    | list xs => simp only [joinColNames] at h; cases h; rfl
    | dict kvs => simp only [joinColNames] at h; cases h; rfl
    | slice a b c => simp only [joinColNames] at h; cases h; rfl

theorem bindWhere_error_shape (form : WhereForm) (args : List PyObj)
    (e : PyError) (h : bindWhere form args = .error e) :
    selectErrShape e = true := by
  unfold bindWhere at h
  split at h
  · cases h; rfl
  · split at h
    · cases h
    · cases h; rfl

theorem sqliteRun_error_shape (t : Table) (store : List (List Cell))
    (names : List String) (w : Option (String × List PyObj)) (e : PyError)
    (h : sqliteRun t store names w = .error e) : selectErrShape e = true := by
  cases hres : resolveIdxs t.columns names with
  | none =>
    simp only [sqliteRun, hres] at h
    cases h; rfl
  | some idxs =>
    cases w with
    | none =>
      simp only [sqliteRun, hres] at h
      exact Except.noConfusion h
    | some wa =>
      obtain ⟨ws, args⟩ := wa
      cases hpw : parseWhere (t.pk.getD "") ws with
      | none =>
        simp only [sqliteRun, hres, hpw] at h
        cases h; rfl
      | some form =>
        cases hbw : bindWhere form args with
        | error e2 =>
          simp only [sqliteRun, hres, hpw, hbw] at h
          cases h
          exact bindWhere_error_shape _ _ _ hbw
        | ok ints =>
          simp only [sqliteRun, hres, hpw, hbw] at h
          exact Except.noConfusion h

theorem select_error_shape (t : Table) (c : Option PyObj)
    (w : Option (String × PyObj)) (store : List (List Cell)) (e : PyError)
    (h : Table.select t c w store = .error e) : selectErrShape e = true := by
  cases hj : joinColNames (selectCols t c) with
  | error e2 =>
    simp only [Table.select, hj] at h
    cases h
    exact joinColNames_error_shape _ _ hj
  | ok names =>
    cases hr : sqliteRun t store names
        (Option.map (fun wp => (wp.1, if hasIter wp.2 then pyElems wp.2 else [wp.2])) w) with
    | error e2 =>
      simp only [Table.select, hj, hr] at h
      cases h
      exact sqliteRun_error_shape _ _ _ _ _ hr
    | ok rows =>
      simp only [Table.select, hj, hr] at h
      exact Except.noConfusion h

/-- C1: evaluation of the code at the failing input — on the table
(id INTEGER PRIMARY KEY AUTOINCREMENT, a INTEGER, b INTEGER), the
positional insert of the two values 1 and 2 does not add the row: the
source wraps the positional row whole as the single element of the
parameter list (entry = [vals] instead of unpacking the row), so the
driver receives one binding for the statement's two placeholders and
raises ProgrammingError, leaving the store unchanged. -/
theorem insert_positional_row_binding_bug :
    Table.insert tabPk3 (some (PyObj.list [PyObj.int 1, PyObj.int 2])) [] =
      .error (PyError.bindingCountError 2 1)
    ∧ runInsert tabPk3 (some (PyObj.list [PyObj.int 1, PyObj.int 2])) [] = []
    ∧ pyErrClass (PyError.bindingCountError 2 1) = "ProgrammingError" :=
  ⟨rfl, rfl, rfl⟩

/-- C2: evaluation of the code at the failing input — on a table with
no primary key, select with the explicit column list containing just
column a does not run over the requested columns unchanged: since
self.pk is None and None is not among the requested names, the code
inserts None at the front of the list, and the subsequent ",".join
raises TypeError, so the select fails. -/
theorem select_without_pk_type_error :
    Table.select tabNoPk (some (PyObj.list [PyObj.str "a"])) Option.none [] =
      .error (PyError.joinTypeError "NoneType")
    ∧ pyErrClass (PyError.joinTypeError "NoneType") = "TypeError" :=
  ⟨rfl, rfl⟩

/-- Witness for C3 at a concrete table and store: five rows with
primary keys 1 through 5, sliced with start 2 and stop 4, give exactly
the rows whose key is 2 or 3. -/
theorem getitem_slice_range_semantics_witness :
    Table.getitem tabPk2 (PyObj.slice (some 2) (some 4) Option.none) store5 =
      .ok { cols := [PyObj.str "id", PyObj.str "x"],
            index := some (PyObj.str "id"),
            rows := [[Cell.int 2, Cell.str "b"], [Cell.int 3, Cell.str "c"]] } := by
  have h := (getitem_slice_range_semantics tabPk2 "id" store5 rfl
    (by decide) (by decide) (by decide)).1 2 4
  exact h

/-- C10: constructing a Table for a name whose reflection query returns
no column rows fails with the numpy indexing error (the metadata array
is one-dimensional, so the column access is out of bounds) — an
IndexError, not a storage error — and no handle is returned. -/
theorem tableInit_empty_reflection_index_error (db name : String) :
    Table.init db name [] = .error PyError.indexError
    ∧ pyErrClass PyError.indexError = "IndexError" :=
  ⟨rfl, rfl⟩

/-- C9: the empty list key is dispatched as a multi-column selection —
the all-elements-are-strings check is vacuously true for it — so
getitem calls select with the empty column list and never fails with
the invalid-key ValueError. -/
theorem getitem_empty_list_dispatches_select (t : Table)
    (store : List (List Cell)) :
    Table.getitem t (PyObj.list []) store
        = Table.select t (some (PyObj.list [])) Option.none store
    ∧ Table.getitem t (PyObj.list []) store
        ≠ .error (PyError.invalidKey (PyObj.list [])) := by
  refine ⟨rfl, ?_⟩
  intro h
  have h2 : Table.select t (some (PyObj.list [])) Option.none store
      = .error (PyError.invalidKey (PyObj.list [])) := h
  have h3 := select_error_shape _ _ _ _ _ h2
  simp [selectErrShape] at h3

/-- C7 counterexample: None is not an integer, not a slice, not a
string and not a sequence of strings, yet indexing with it raises the
TypeError produced by iterating a non-iterable object (whose message
names only the type), not a ValueError-kind error naming the key. -/
theorem getitem_none_key_type_error :
    Table.getitem tabPk3 PyObj.none [] = .error (PyError.iterTypeError "NoneType")
    ∧ pyErrClass (PyError.iterTypeError "NoneType") = "TypeError"
    ∧ pyErrClass (PyError.iterTypeError "NoneType") ≠ "ValueError" :=
  ⟨rfl, rfl, by decide⟩

/-- C7 (amended): an iterable key containing a non-string element fails
with the invalid-key ValueError carrying the key, while a non-iterable
unsupported key (None here) fails with the TypeError raised by the
attempt to iterate it. -/
theorem getitem_bad_key_errors (t : Table) (store : List (List Cell))
    (xs : List PyObj) (hx : xs.all isStr = false) :
    Table.getitem t (PyObj.list xs) store
        = .error (PyError.invalidKey (PyObj.list xs))
    ∧ Table.getitem t PyObj.none store
        = .error (PyError.iterTypeError "NoneType") := by
  constructor
  · simp only [Table.getitem, hasIter, pyElems, hx, Bool.false_eq_true,
      if_false, if_true]
  · rfl

/-- Witness for C7's amended statement at a concrete key. -/
theorem getitem_bad_key_errors_witness :
    Table.getitem tabPk3 (PyObj.list [PyObj.int 1]) []
        = .error (PyError.invalidKey (PyObj.list [PyObj.int 1]))
    ∧ Table.getitem tabPk3 PyObj.none []
        = .error (PyError.iterTypeError "NoneType") :=
  getitem_bad_key_errors tabPk3 [] [PyObj.int 1] rfl

/-- C4: constructing a Table over reflection output with more than one
primary-key-flagged column fails with the schema error (the
more-than-one-primary-key ValueError, the spec's SchemaError) carrying
the flagged indices, and yields no handle; zero or one flagged column
never fails on that account — zero leaves pk None, exactly one binds pk
to that column's name. -/
theorem tableInit_primary_key_cases (db name : String) (rows : List MetaRow)
    (h : rows.isEmpty = false) :
    (1 < (pkFlagged rows).length →
      Table.init db name rows = .error (PyError.schemaValueError (pkFlagged rows)))
    ∧ ((pkFlagged rows).length = 0 →
      ∃ tb, Table.init db name rows = .ok tb ∧ tb.pk = Option.none)
    ∧ (∀ i : Nat, pkFlagged rows = [i] →
      ∃ tb, Table.init db name rows = .ok tb
        ∧ tb.pk = some ((rows.map MetaRow.colname).getD i "")) := by
  refine ⟨?_, ?_, ?_⟩
  · intro hgt
    simp [Table.init, h, hgt]
  · intro hz
    have hnil : pkFlagged rows = [] := List.length_eq_zero.mp hz
    refine ⟨{ db := db, name := name, columns := rows.map MetaRow.colname,
              pk := Option.none,
              reprStr := name ++ "(" ++ String.intercalate ", "
                (rows.map (fun m => m.colname ++ " " ++ m.dtype)) ++ ")" },
            ?_, rfl⟩
    simp [Table.init, h, hnil]
  · intro i hi
    have hlen1 : (pkFlagged rows).length = 1 := by rw [hi]; rfl
    refine ⟨{ db := db, name := name, columns := rows.map MetaRow.colname,
              pk := some ((rows.map MetaRow.colname).getD i ""),
              reprStr := name ++ "(" ++ String.intercalate ", "
                ((rows.map (fun m => m.colname ++ " " ++ m.dtype)).set
                  ((rows.map MetaRow.colname).indexOf
                    ((rows.map MetaRow.colname).getD i ""))
                  ((rows.map (fun m => m.colname ++ " " ++ m.dtype)).getD
                    ((rows.map MetaRow.colname).indexOf
                      ((rows.map MetaRow.colname).getD i "")) ""
                    ++ " PRIMARY KEY AUTOINCREMENT")) ++ ")" },
            ?_, rfl⟩
    simp [Table.init, h, hi]

/-- Witness for C4: reflection output with two flagged columns makes
construction fail with the schema error carrying both indices. -/
theorem tableInit_primary_key_cases_witness :
    Table.init "test.db" "t" metaTwoPk =
      .error (PyError.schemaValueError [0, 1]) :=
  (tableInit_primary_key_cases "test.db" "t" metaTwoPk rfl).1 (by decide)

theorem createArgs_bad_spec (dtypes : List (String × DType)) (pk : Option String)
    (hbad : ∃ ld ∈ dtypes, sqltypeOf ld.2 = Option.none
      ∨ (pk = some ld.1 ∧ sqltypeOf ld.2 ≠ some "INTEGER")) :
    ∃ d, createArgs dtypes pk = .error (PyError.invalidDtype d)
       ∨ createArgs dtypes pk = .error (PyError.invalidPkDtype d) := by
  induction dtypes with
  | nil =>
    obtain ⟨ld, hmem, _⟩ := hbad
    exact absurd hmem (List.not_mem_nil ld)
  | cons hd rest ih =>
    obtain ⟨label, dtype⟩ := hd
    cases hst : sqltypeOf dtype with
    | none =>
      refine ⟨dtype.label, Or.inl ?_⟩
      simp [createArgs, hst]
    | some st =>
      by_cases hpkbad : pk = some label ∧ st ≠ "INTEGER"
      · refine ⟨dtype.label, Or.inr ?_⟩
        simp [createArgs, hst, hpkbad]
      · have hbad2 : ∃ ld ∈ rest, sqltypeOf ld.2 = Option.none
            ∨ (pk = some ld.1 ∧ sqltypeOf ld.2 ≠ some "INTEGER") := by
          obtain ⟨ld, hmem, hld⟩ := hbad
          rcases List.mem_cons.mp hmem with heq | hmem2
          · exfalso
            subst heq
            rcases hld with h1 | ⟨h2, h3⟩
            · rw [hst] at h1
              exact Option.noConfusion h1
            · exact hpkbad ⟨h2, fun hst2 => h3 (hst.trans (congrArg some hst2))⟩
          · exact ⟨ld, hmem2, hld⟩
        obtain ⟨d, hd⟩ := ih hbad2
        refine ⟨d, ?_⟩
        rcases hd with hd | hd
        · exact Or.inl (by simp [createArgs, hst, hpkbad, hd])
        · exact Or.inr (by simp [createArgs, hst, hpkbad, hd])

/-- C5: create fails whenever some column spec's dtype is outside the
recognised set or the column designated as primary key does not map to
the INTEGER SQL type; the error (one of the two create ValueErrors, the
spec's TypeError-kind taxon) is raised before the CREATE TABLE
statement is issued, so the store state is unchanged and the table does
not come to exist. -/
theorem create_invalid_spec_rejected_before_ddl (dbState : List String)
    (name : String) (dtypes : List (String × DType)) (pk : Option String)
    (hbad : ∃ ld ∈ dtypes, sqltypeOf ld.2 = Option.none
      ∨ (pk = some ld.1 ∧ sqltypeOf ld.2 ≠ some "INTEGER")) :
    ∃ d, Table.createRun dbState name dtypes pk
          = (dbState, some (PyError.invalidDtype d))
       ∨ Table.createRun dbState name dtypes pk
          = (dbState, some (PyError.invalidPkDtype d)) := by
  obtain ⟨d, hd⟩ := createArgs_bad_spec dtypes pk hbad
  refine ⟨d, ?_⟩
  rcases hd with hd | hd
  · exact Or.inl (by simp [Table.createRun, hd])
  · exact Or.inr (by simp [Table.createRun, hd])

/-- Witness for C5: a primary key designated on a TEXT column is
rejected with the state untouched. -/
theorem create_invalid_spec_rejected_before_ddl_witness :
    ∃ d, Table.createRun [] "t" [("a", DType.str)] (some "a")
          = ([], some (PyError.invalidDtype d))
       ∨ Table.createRun [] "t" [("a", DType.str)] (some "a")
          = ([], some (PyError.invalidPkDtype d)) :=
  create_invalid_spec_rejected_before_ddl [] "t" [("a", DType.str)] (some "a")
    ⟨("a", DType.str), by simp, Or.inr ⟨rfl, by decide⟩⟩

/-- C6 counterexample: the empty positional sequence has a value count
(zero) differing from the two non-primary-key columns of the table, yet
the failing call raises IndexError from the values[0] inspection during
input normalisation — not a ValueError-kind error citing expected and
actual counts. -/
theorem insert_empty_positional_index_error :
    Table.insert tabPk3 (some (PyObj.list [])) [] = .error PyError.indexError
    ∧ pyErrClass PyError.indexError = "IndexError"
    ∧ PyError.indexError ≠ PyError.arityValueError 2 0 :=
  ⟨rfl, rfl, fun h => PyError.noConfusion h⟩

/-- C6 (amended): for every nonempty positional sequence of values
whose count differs from the number of non-primary-key columns, insert
fails with the arity ValueError carrying the expected and the actual
count, raised before any statement executes, and the store is unchanged
by the failing call. -/
theorem insert_positional_arity_mismatch (t : Table)
    (store : List (List Cell)) (v : PyObj) (vs : List PyObj)
    (hscalar : hasIter v = false)
    (hcount : (v :: vs).length ≠ (insertCols t).length) :
    Table.insert t (some (PyObj.list (v :: vs))) store =
      .error (PyError.arityValueError (insertCols t).length (v :: vs).length)
    ∧ runInsert t (some (PyObj.list (v :: vs))) store = store := by
  have hre : rowEntry (insertCols t) (insertCols t).length (PyObj.list (v :: vs))
      = .error (PyError.arityValueError (insertCols t).length (v :: vs).length) := by
    simp only [rowEntry, pyElems, hasIter]
    rw [if_pos trivial, if_pos hcount]
  have hmain : Table.insert t (some (PyObj.list (v :: vs))) store =
      .error (PyError.arityValueError (insertCols t).length (v :: vs).length) := by
    simp [Table.insert, normalizeValues, hscalar, List.mapM.loop, hre]
  exact ⟨hmain, by simp [runInsert, hmain]⟩

/-- Witness for C6's amended statement: a one-value positional insert
into a table with two non-primary-key columns. -/
theorem insert_positional_arity_mismatch_witness :
    Table.insert tabPk3 (some (PyObj.list [PyObj.int 9])) [] =
      .error (PyError.arityValueError 2 1)
    ∧ runInsert tabPk3 (some (PyObj.list [PyObj.int 9])) [] = [] :=
  insert_positional_arity_mismatch tabPk3 [] (PyObj.int 9) [] rfl (by decide)
